import Mathlib

/-!
Shallow embedding of the media-downloader backend (`src/downloader.py`,
class `SocialDownloader`) together with theorems checking the natural-language
specification of the repository against it.

Conventions of the embedding:
* a Python value that can be absent or `None` is an `Option`;
* `dict.get(k)` on the info dict is the corresponding `Option` field, and
  a `dict.get` with an empty-string default is that field with `Option.getD ""` applied;
* Python truthiness (`None`, `0` and `""` are falsy) is spelled out at each
  use site (`pyOrStr`, `pyOrNat`, the `height` test of the quality loop);
* the filesystem seen by `download` is a function `String → Option Nat`
  giving each existing path its byte size (`none` = the path does not exist);
* the external extraction service call is an `Except String` outcome: either
  the message of the raised exception, or the info dict plus the predicted
  filename that `ydl.prepare_filename` returns.
-/

/-! ## Python-level helpers -/

/-- Python `a or b` for the string fields of the info dict: `a` falls
through when it is `None` or the empty string (both falsy), and an absent
second field also yields `""` (the source reads the fields with an
empty-string default). -/
def pyOrStr (a b : Option String) : String :=
  match a with
  | some s => if s = "" then b.getD "" else s
  | none => b.getD ""

/-- Python `a or b` for the size fields of the info dict: `a` falls through
when it is `None` or `0` (both falsy). -/
def pyOrNat (a b : Option Nat) : Option Nat :=
  match a with
  | some n => if n = 0 then b else some n
  | none => b

/-- Python `needle in hay` on strings: contiguous substring test. -/
def pyIn (needle hay : String) : Bool :=
  decide (needle.toList <:+: hay.toList)

/-- Python `s.lower()`, for the ASCII strings this code handles. -/
def pyLower (s : String) : String :=
  String.mk (s.toList.map Char.toLower)

/-- Index of the last occurrence of `c` in `cs`, if any. -/
def lastIndexOf (c : Char) (cs : List Char) : Option Nat :=
  (List.range cs.length).foldl
    (fun acc i => if cs.getD i c = c then some i else acc) none

/-- Mirror of CPython `posixpath.splitext`: split off the extension at the
last dot of the last path component, unless every character of that
component before the dot is itself a dot (leading-dot names such as
`.bashrc` keep no extension). -/
def splitext (p : String) : String × String :=
  let cs := p.toList
  let sep : Int := match lastIndexOf '/' cs with
    | some i => (i : Int)
    | none => -1
  let dot : Int := match lastIndexOf '.' cs with
    | some i => (i : Int)
    | none => -1
  if dot > sep then
    let start : Nat := (sep + 1).toNat
    let di : Nat := dot.toNat
    if ((cs.drop start).take (di - start)).any (fun ch => ch ≠ '.') then
      (String.mk (cs.take di), String.mk (cs.drop di))
    else (p, "")
  else (p, "")

/-- Mirror of CPython `posixpath.basename`: everything after the last
slash (the whole path when it has no slash). -/
def pyBasename (p : String) : String :=
  String.mk (p.toList.foldl (fun acc c => if c = '/' then [] else acc ++ [c]) [])

/-! ## Data model -/

/-- One encoding option of a resource: an entry of the `formats` list of
the raw info dict (spec §3, FormatVariant). `none` models an absent or
null field. -/
structure FormatVariant where
  height : Option Nat := none
  vcodec : Option String := none
  acodec : Option String := none
  ext : Option String := none
  filesize : Option Nat := none
  filesize_approx : Option Nat := none
deriving Repr, DecidableEq

/-- The raw structured result of probing a URL (spec §3, MediaDescriptor),
restricted to the fields the classifier and the quality lister read.
`type_tag` is the `_type` entry of the dict. -/
structure MediaDescriptor where
  type_tag : Option String := none
  webpage_url : Option String := none
  url : Option String := none
  duration : Option Nat := none
  formats : List FormatVariant := []
deriving Repr, DecidableEq

/-! ## Content-type detection (`SocialDownloader._detect_content_type`) -/

/-- URL substrings that mark a photo page in `_detect_content_type`. -/
def photoUrlMarkers : List String :=
  ["/photo/", "/image/", ".jpg", ".png", ".jpeg", ".webp"]

/-- `SocialDownloader._detect_content_type`: decide whether the probed
content is `"photo"`, `"audio"` or `"video"`. -/
def detect_content_type (info : MediaDescriptor) : String :=
  if info.type_tag = some "image" then "photo"
  else
    let url := pyOrStr info.webpage_url info.url
    if photoUrlMarkers.any (fun x => pyIn x (pyLower url)) then "photo"
    else
      let duration := info.duration
      let has_video := info.formats.any
        (fun f => decide (f.vcodec ≠ some "none" ∧ f.vcodec ≠ none))
      let has_audio := info.formats.any
        (fun f => decide (f.acodec ≠ some "none" ∧ f.acodec ≠ none))
      if ¬has_video ∧ ¬has_audio then "photo"
      else if ¬has_video ∧ has_audio then "audio"
      else if (duration = none ∨ duration = some 0) ∧ ¬has_audio then "photo"
      else "video"

/-- Codec presence as step 3 of §4.1 of the spec words it: the codec id is
present and is not the literal sentinel `"none"`. -/
def codecPresent (c : Option String) : Bool :=
  decide (c ≠ none ∧ c ≠ some "none")

/-- Content-type classification written out following the §4.1 decision
list of the spec word for word, for comparison with `detect_content_type`
as embedded from the source. -/
def classifySpec (d : MediaDescriptor) : String :=
  if d.type_tag = some "image" then "photo"
  else if photoUrlMarkers.any
      (fun x => pyIn x (pyLower (pyOrStr d.webpage_url d.url))) then "photo"
  else
    let has_video := d.formats.any (fun f => codecPresent f.vcodec)
    let has_audio := d.formats.any (fun f => codecPresent f.acodec)
    if ¬has_video ∧ ¬has_audio then "photo"
    else if has_audio ∧ ¬has_video then "audio"
    else if (d.duration = none ∨ d.duration = some 0) ∧ ¬has_audio then "photo"
    else "video"

/-! ## Quality bucketing (`SocialDownloader._height_to_quality` and
`_get_available_qualities`) -/

/-- `SocialDownloader._height_to_quality`: convert a pixel height to a
quality bucket name. -/
def height_to_quality (height : Nat) : Option String :=
  if height ≥ 4320 then some "8k"
  else if height ≥ 2160 then some "4k"
  else if height ≥ 1440 then some "2k"
  else if height ≥ 1080 then some "1080p"
  else if height ≥ 720 then some "720p"
  else if height ≥ 480 then some "480p"
  else if height ≥ 360 then some "360p"
  else if height ≥ 240 then some "240p"
  else if height ≥ 144 then some "144p"
  else none

/-- Threshold table of spec §4.2, highest threshold first. -/
def qualityThresholds : List (Nat × String) :=
  [(4320, "8k"), (2160, "4k"), (1440, "2k"), (1080, "1080p"), (720, "720p"),
   (480, "480p"), (360, "360p"), (240, "240p"), (144, "144p")]

/-- Bucketing as §4.2 of the spec words it: the bucket of the highest threshold
that is at most `height`, none below the lowest threshold. -/
def heightToBucketSpec (height : Nat) : Option String :=
  (qualityThresholds.find? (fun p => decide (p.1 ≤ height))).map Prod.snd

/-- Rank of a bucket in the fixed quality order, `none` lowest. -/
def qualityRank : Option String → Nat
  | none => 0
  | some "144p" => 1
  | some "240p" => 2
  | some "360p" => 3
  | some "480p" => 4
  | some "720p" => 5
  | some "1080p" => 6
  | some "2k" => 7
  | some "4k" => 8
  | some "8k" => 9
  | some _ => 0

/-- Value stored per bucket by `_get_available_qualities` (its inner dict:
height, resolved file size, extension, the constant `available : True`). -/
structure QInfo where
  height : Nat
  filesize : Option Nat
  ext : Option String
  available : Bool
deriving Repr, DecidableEq

/-- The per-bucket record `_get_available_qualities` stores for a format
variant: the size field is `filesize or filesize_approx`. -/
def qinfoOf (f : FormatVariant) : QInfo :=
  ⟨f.height.getD 0, pyOrNat f.filesize f.filesize_approx, f.ext, true⟩

/-- Loop body of `_get_available_qualities`: fold one format variant into
the insertion-ordered table of found qualities. The guard mirrors the
source: height must be truthy (not absent, not `0`) and vcodec must differ
from the string literal none (an absent vcodec passes), and an
already-present bucket is kept unchanged. -/
def addVariant (qualities : List (String × QInfo)) (f : FormatVariant) :
    List (String × QInfo) :=
  match f.height with
  | none => qualities
  | some h =>
    if h ≠ 0 ∧ f.vcodec ≠ some "none" then
      match height_to_quality h with
      | some q =>
        if (qualities.lookup q).isSome then qualities
        else qualities ++ [(q, qinfoOf f)]
      | none => qualities
    else qualities

/-- Fixed best-to-worst presentation order of the buckets. -/
def qualityOrder : List String :=
  ["8k", "4k", "2k", "1080p", "720p", "480p", "360p", "240p", "144p"]

/-- Static display-label table of `_get_quality_label`. -/
def qualityLabels : List (String × String) :=
  [("8k", "8K Ultra HD (4320p)"), ("4k", "4K Ultra HD (2160p)"),
   ("2k", "2K QHD (1440p)"), ("1080p", "Full HD (1080p)"), ("720p", "HD (720p)"),
   ("480p", "SD (480p)"), ("360p", "360p"), ("240p", "240p"), ("144p", "144p")]

/-- `SocialDownloader._get_quality_label`: `labels.get(quality, quality)`. -/
def get_quality_label (quality : String) : String :=
  (qualityLabels.lookup quality).getD quality

/-- One element of the list `_get_available_qualities` returns. -/
structure QualityEntry where
  value : String
  label : String
  available : Bool
  filesize : Option Nat
deriving Repr, DecidableEq

/-- `SocialDownloader._get_available_qualities`: collect the buckets the
format variants cover (first variant per bucket wins), then emit them in
the fixed best-to-worst order. -/
def get_available_qualities (info : MediaDescriptor) : List QualityEntry :=
  let qualities := info.formats.foldl addVariant []
  qualityOrder.filterMap (fun q =>
    (qualities.lookup q).map (fun i =>
      ⟨q, get_quality_label q, true, i.filesize⟩))

/-- A format variant that spec §4.2 buckets into `q`: a non-"none" video
codec and a known height whose bucket is `q`. -/
def variantInBucket (q : String) (f : FormatVariant) : Bool :=
  decide (f.vcodec ≠ some "none") &&
    (match f.height with
     | some h => decide (height_to_quality h = some q)
     | none => false)

/-- The quality entry §4.2 of the spec describes for bucket `q` taken from
format variant `f`: the fixed label from the static table and the
first-seen file-size information. -/
def specEntry (q : String) (f : FormatVariant) : QualityEntry :=
  ⟨q, get_quality_label q, true, pyOrNat f.filesize f.filesize_approx⟩

/-! ## Download options (`SocialDownloader._get_download_options`) -/

/-- One postprocessor entry of a yt-dlp options dict. -/
structure PostProcessor where
  key : String
  preferredcodec : String
  preferredquality : String
deriving Repr, DecidableEq

/-- The yt-dlp options dict fields `_get_download_options` can set. An
absent dict key is the default of the field. -/
structure YdlOptions where
  format : Option String := none
  merge_output_format : Option String := none
  postprocessors : List PostProcessor := []
  quiet : Option Bool := none
  no_warnings : Option Bool := none
deriving Repr, DecidableEq

/-- Bucket-to-ceiling table of `_get_download_options` (`quality_map`). -/
def quality_map : List (String × Nat) :=
  [("8k", 4320), ("4k", 2160), ("2k", 1440), ("1080p", 1080), ("720p", 720),
   ("480p", 480), ("360p", 360), ("240p", 240), ("144p", 144)]

/-- The constrained stream selector for a height ceiling. -/
def heightCappedSelector (height : Nat) : String :=
  "bestvideo[height<=" ++ toString height ++ "]+bestaudio/best[height<=" ++
    toString height ++ "]"

/-- `SocialDownloader._get_download_options`: build the options dict for
the external service from the requested quality, format and download type. -/
def get_download_options (quality format_type download_type : String) :
    YdlOptions :=
  if download_type = "photo" then
    { quiet := some true, no_warnings := some true }
  else if download_type = "audio" then
    { format := some "bestaudio/best",
      postprocessors := [⟨"FFmpegExtractAudio", format_type, "320"⟩],
      quiet := some false }
  else
    match quality_map.lookup quality with
    | some height =>
      { format := some (heightCappedSelector height),
        merge_output_format := some format_type, quiet := some false }
    | none =>
      { format := some "bestvideo+bestaudio/best",
        merge_output_format := some format_type, quiet := some false }

/-! ## File-size formatting (`SocialDownloader._format_filesize`)

The source divides a float by 1024 until it drops below 1024 and prints the
result with one decimal (`f"{size:.1f}"`). Dividing an IEEE double by 1024
only decrements its exponent, so for any byte count below 2^53 every value
of the loop is exact, equal to `size / 1024 ^ k`; the embedding carries the
pair `(size, k)` instead of the float and renders `size / 1024 ^ k` rounded
to one decimal with ties to even, which is what `:.1f` prints for an
exactly-represented value. -/

/-- Round `a / b` to the nearest integer, ties to the even neighbour
(IEEE round-half-even, which the Python string formatting applies to the
exact value of a float). `b` must be positive. -/
def roundHalfEvenDiv (a b : Nat) : Nat :=
  let q := a / b
  let r := a % b
  if 2 * r < b then q
  else if 2 * r > b then q + 1
  else if q % 2 = 0 then q else q + 1

/-- Render the tenths count `n10` as a decimal with exactly one fractional
digit, followed by the unit. -/
def renderTenths (n10 : Nat) (unit : String) : String :=
  toString (n10 / 10) ++ "." ++ toString (n10 % 10) ++ " " ++ unit

/-- Loop of `_format_filesize`: the current value is `size / 1024 ^ k`;
when it is below 1024 (that is, `size < 1024 ^ (k + 1)`) print it with the
current unit, else divide once more and move to the next unit, falling
back to `"TB"` after `"GB"`. -/
def format_filesize_go (size k : Nat) : List String → String
  | [] => renderTenths (roundHalfEvenDiv (10 * size) (1024 ^ k)) "TB"
  | unit :: units =>
    if size < 1024 ^ (k + 1) then
      renderTenths (roundHalfEvenDiv (10 * size) (1024 ^ k)) unit
    else format_filesize_go size (k + 1) units

/-- `SocialDownloader._format_filesize` on a byte count. -/
def format_filesize (size : Nat) : String :=
  format_filesize_go size 0 ["B", "KB", "MB", "GB"]

/-! ## The download operation (`SocialDownloader.download`), after the
external service call -/

/-- The info-dict fields the download result reads. -/
structure ExtractResult where
  title : Option String := none
  extractor_key : Option String := none
deriving Repr, DecidableEq

/-- The JSON-shaped envelope `download` returns. Keys absent from the
returned Python dict are `none`. -/
structure DownloadResponse where
  success : Bool
  error : Option String := none
  title : Option String := none
  filename : Option String := none
  filepath : Option String := none
  platform : Option String := none
  filesize : Option Nat := none
  filesize_readable : Option String := none
deriving Repr, DecidableEq

/-- A filesystem snapshot: the byte size of each existing path. -/
def FileSystem : Type := String → Option Nat

/-- The success envelope `download` builds for a found file. -/
def successEnvelope (info : ExtractResult) (path : String) (filesize : Nat) :
    DownloadResponse :=
  { success := true, title := info.title,
    filename := some (pyBasename path), filepath := some path,
    platform := info.extractor_key, filesize := some filesize,
    filesize_readable := some (format_filesize filesize) }

/-- Candidate extensions of the fallback search, in source order. -/
def candidateExts : List String :=
  ["mp4", "webm", "mkv", "mp3", "m4a", "wav", "jpg", "png", "webp"]

/-- Fallback loop of `download`: try `base.ext` for each candidate
extension and return the first existing path with its size. -/
def firstExisting (fs : FileSystem) (base : String) :
    List String → Option (String × Nat)
  | [] => none
  | e :: es =>
    match fs (base ++ "." ++ e) with
    | some sz => some (base ++ "." ++ e, sz)
    | none => firstExisting fs base es

/-- Body of `SocialDownloader.download` after `extract_info` returned:
rewrite the predicted filename for audio, then locate the file on disk
and build the response envelope. -/
def resolveDownload (fs : FileSystem) (info : ExtractResult)
    (filename0 download_type format_type : String) : DownloadResponse :=
  let filename :=
    if download_type = "audio" then (splitext filename0).1 ++ "." ++ format_type
    else filename0
  match fs filename with
  | some filesize =>
    if filesize = 0 then
      { success := false,
        error := some "Downloaded file is empty. Try a different quality." }
    else successEnvelope info filename filesize
  | none =>
    let base := (splitext filename).1
    match firstExisting fs base candidateExts with
    | some (path, filesize) => successEnvelope info path filesize
    | none =>
      { success := false, error := some "Could not find downloaded file." }

/-- `SocialDownloader.download`, given the outcome of the external service
call: the message of an exception is mapped through the `unavailable` test, a
normal return is resolved against the filesystem. -/
def download (fs : FileSystem)
    (outcome : Except String (ExtractResult × String))
    (download_type format_type : String) : DownloadResponse :=
  match outcome with
  | .error msg =>
    if pyIn "unavailable" (pyLower msg) then
      { success := false,
        error := some "This quality is not available. Please try a lower quality." }
    else { success := false, error := some msg }
  | .ok (info, filename) =>
    resolveDownload fs info filename download_type format_type

/-- Concrete filesystem for exercising the fallback search: only the file
`downloads/clip.mkv` exists, with five bytes. -/
def fsClip : FileSystem :=
  fun p => if p = "downloads/clip.mkv" then some 5 else none

/-- Concrete filesystem for exercising the fallback search on an empty
file: only `downloads/song.webm` exists, with zero bytes. -/
def fsSongZero : FileSystem :=
  fun p => if p = "downloads/song.webm" then some 0 else none

/-- Concrete info-dict fields for the download scenarios. -/
def infoClip : ExtractResult :=
  { title := some "clip", extractor_key := some "Generic" }

/-! ## Theorems -/

/-- Helper: the two phrasings of codec presence agree, on the video codec. -/
theorem vcodecPred_eq_codecPresent :
    (fun (f : FormatVariant) => decide (f.vcodec ≠ some "none" ∧ f.vcodec ≠ none))
      = fun f => codecPresent f.vcodec := by
  funext f
  simp [codecPresent, decide_eq_decide, and_comm]

/-- Helper: the two phrasings of codec presence agree, on the audio codec. -/
theorem acodecPred_eq_codecPresent :
    (fun (f : FormatVariant) => decide (f.acodec ≠ some "none" ∧ f.acodec ≠ none))
      = fun f => codecPresent f.acodec := by
  funext f
  simp [codecPresent, decide_eq_decide, and_comm]

/-- C1: `classify` follows the §4.1 decision order exactly (it agrees with
the spec-worded `classifySpec` on every descriptor), is total with values
photo, audio or video only, and sends every descriptor whose declared type
tag is image to photo regardless of all other fields. -/
theorem detect_content_type_spec (d : MediaDescriptor) :
    detect_content_type d = classifySpec d ∧
    (detect_content_type d = "photo" ∨ detect_content_type d = "audio" ∨
      detect_content_type d = "video") ∧
    (d.type_tag = some "image" → detect_content_type d = "photo") := by
  refine ⟨?_, ?_, ?_⟩
  · unfold detect_content_type classifySpec
    rw [vcodecPred_eq_codecPresent, acodecPred_eq_codecPresent]
    by_cases g1 : d.type_tag = some "image"
    · simp [g1]
    · by_cases g2 : photoUrlMarkers.any
          (fun x => pyIn x (pyLower (pyOrStr d.webpage_url d.url))) = true
      · simp [g1, g2]
      · cases hb : d.formats.any (fun f => codecPresent f.vcodec) <;>
          cases hc : d.formats.any (fun f => codecPresent f.acodec) <;>
            simp [g1, g2, hb, hc, and_comm]
  · unfold detect_content_type
    by_cases g1 : d.type_tag = some "image"
    · simp [g1]
    · by_cases g2 : photoUrlMarkers.any
          (fun x => pyIn x (pyLower (pyOrStr d.webpage_url d.url))) = true
      · simp [g1, g2]
      · cases hb : d.formats.any
            (fun f => decide (f.vcodec ≠ some "none" ∧ f.vcodec ≠ none)) <;>
          cases hc : d.formats.any
              (fun f => decide (f.acodec ≠ some "none" ∧ f.acodec ≠ none)) <;>
            by_cases g3 : (d.duration = none ∨ d.duration = some 0) <;>
              simp [g1, g2, hb, hc, g3]
  · intro h
    unfold detect_content_type
    simp [h]

/-- Helper: the source if-chain equals the spec threshold table lookup at
every height, zero included. -/
theorem height_to_quality_eq_bucketSpec (h : Nat) :
    height_to_quality h = heightToBucketSpec h := by
  by_cases h1 : 4320 ≤ h
  · simp [height_to_quality, heightToBucketSpec, qualityThresholds, List.find?, h1, ge_iff_le]
  · by_cases h2 : 2160 ≤ h
    · simp [height_to_quality, heightToBucketSpec, qualityThresholds, List.find?, h1, h2,
        ge_iff_le]
    · by_cases h3 : 1440 ≤ h
      · simp [height_to_quality, heightToBucketSpec, qualityThresholds, List.find?, h1, h2,
          h3, ge_iff_le]
      · by_cases h4 : 1080 ≤ h
        · simp [height_to_quality, heightToBucketSpec, qualityThresholds, List.find?, h1,
            h2, h3, h4, ge_iff_le]
        · by_cases h5 : 720 ≤ h
          · simp [height_to_quality, heightToBucketSpec, qualityThresholds, List.find?, h1,
              h2, h3, h4, h5, ge_iff_le]
          · by_cases h6 : 480 ≤ h
            · simp [height_to_quality, heightToBucketSpec, qualityThresholds, List.find?,
                h1, h2, h3, h4, h5, h6, ge_iff_le]
            · by_cases h7 : 360 ≤ h
              · simp [height_to_quality, heightToBucketSpec, qualityThresholds, List.find?,
                  h1, h2, h3, h4, h5, h6, h7, ge_iff_le]
              · by_cases h8 : 240 ≤ h
                · simp [height_to_quality, heightToBucketSpec, qualityThresholds,
                    List.find?, h1, h2, h3, h4, h5, h6, h7, h8, ge_iff_le]
                · by_cases h9 : 144 ≤ h
                  · simp [height_to_quality, heightToBucketSpec, qualityThresholds,
                      List.find?, h1, h2, h3, h4, h5, h6, h7, h8, h9, ge_iff_le]
                  · simp [height_to_quality, heightToBucketSpec, qualityThresholds,
                      List.find?, h1, h2, h3, h4, h5, h6, h7, h8, h9, ge_iff_le]

/-- C2: for every positive height, `heightToBucket` returns the bucket of
the highest threshold at most the height (the §4.2 table), with none below
144; in particular 2160 gives 4k, 1080 gives 1080p and 143 gives none. -/
theorem height_to_quality_table :
    (∀ height : Nat, 0 < height →
      height_to_quality height = heightToBucketSpec height) ∧
    height_to_quality 2160 = some "4k" ∧
    height_to_quality 1080 = some "1080p" ∧
    height_to_quality 143 = none := by
  exact ⟨fun h _ => height_to_quality_eq_bucketSpec h, by decide, by decide, by decide⟩

/-- C8: the size formatter divides by 1024 while the value is at least
1024, advancing through B, KB, MB, GB and stopping at TB, and renders the
final value with exactly one decimal digit; the three boundary examples of
the spec evaluate as stated. -/
theorem format_filesize_spec :
    (∀ size : Nat, size < 1024 →
      format_filesize size = renderTenths (10 * size) "B") ∧
    (∀ size : Nat, 1024 ≤ size → size < 1024 ^ 2 →
      format_filesize size = renderTenths (roundHalfEvenDiv (10 * size) 1024) "KB") ∧
    (∀ size : Nat, 1024 ^ 2 ≤ size → size < 1024 ^ 3 →
      format_filesize size = renderTenths (roundHalfEvenDiv (10 * size) (1024 ^ 2)) "MB") ∧
    (∀ size : Nat, 1024 ^ 3 ≤ size → size < 1024 ^ 4 →
      format_filesize size = renderTenths (roundHalfEvenDiv (10 * size) (1024 ^ 3)) "GB") ∧
    (∀ size : Nat, 1024 ^ 4 ≤ size →
      format_filesize size = renderTenths (roundHalfEvenDiv (10 * size) (1024 ^ 4)) "TB") ∧
    format_filesize 1023 = "1023.0 B" ∧
    format_filesize 1024 = "1.0 KB" ∧
    format_filesize (5 * 1024 * 1024) = "5.0 MB" := by
  have hr : ∀ a : Nat, roundHalfEvenDiv a 1 = a := by
    intro a
    simp [roundHalfEvenDiv, Nat.mod_one, Nat.div_one]
  refine ⟨?_, ?_, ?_, ?_, ?_, by decide, by decide, by decide⟩
  · intro size h
    simp [format_filesize, format_filesize_go, h, hr]
  · intro size h1 h2
    have e1 : ¬ size < 1024 := by omega
    have e2 : size < 1048576 := by norm_num at h2; omega
    simp [format_filesize, format_filesize_go, e1, e2]
  · intro size h1 h2
    have e1 : ¬ size < 1024 := by norm_num at h1; omega
    have e2 : ¬ size < 1048576 := by norm_num at h1; omega
    have e3 : size < 1073741824 := by norm_num at h2; omega
    simp [format_filesize, format_filesize_go, e1, e2, e3]
  · intro size h1 h2
    have e1 : ¬ size < 1024 := by norm_num at h1; omega
    have e2 : ¬ size < 1048576 := by norm_num at h1; omega
    have e3 : ¬ size < 1073741824 := by norm_num at h1; omega
    have e4 : size < 1099511627776 := by norm_num at h2; omega
    simp [format_filesize, format_filesize_go, e1, e2, e3, e4]
  · intro size h1
    have e1 : ¬ size < 1024 := by norm_num at h1; omega
    have e2 : ¬ size < 1048576 := by norm_num at h1; omega
    have e3 : ¬ size < 1073741824 := by norm_num at h1; omega
    have e4 : ¬ size < 1099511627776 := by norm_num at h1; omega
    simp [format_filesize, format_filesize_go, e1, e2, e3, e4]

/-- Helper: height zero falls below every threshold. -/
theorem height_to_quality_zero : height_to_quality 0 = none := by decide

/-- Helper: folding a variant that buckets into `q` binds `q` to its info
unless `q` is already bound. -/
theorem lookup_addVariant_pos (acc : List (String × QInfo)) (f : FormatVariant)
    (q : String) (hm : variantInBucket q f = true) :
    (addVariant acc f).lookup q = (acc.lookup q).or (some (qinfoOf f)) := by
  cases hh : f.height with
  | none => simp [variantInBucket, hh] at hm
  | some h =>
    simp only [variantInBucket, hh, Bool.and_eq_true, decide_eq_true_eq] at hm
    obtain ⟨hvc, hq⟩ := hm
    have hz : h ≠ 0 := by
      intro h0
      rw [h0] at hq
      simp [height_to_quality_zero] at hq
    unfold addVariant
    rw [hh]
    simp only [hz, hvc, and_true, ne_eq, not_false_iff, if_true, hq]
    by_cases hs : (acc.lookup q).isSome
    · obtain ⟨v, hv⟩ := Option.isSome_iff_exists.mp hs
      simp [hs, hv]
    · have hn : acc.lookup q = none := Option.not_isSome_iff_eq_none.mp hs
      simp [hs, hn, List.lookup_append, List.lookup]

/-- Helper: folding a variant that does not bucket into `q` leaves the
binding of `q` unchanged. -/
theorem lookup_addVariant_neg (acc : List (String × QInfo)) (f : FormatVariant)
    (q : String) (hm : ¬ variantInBucket q f = true) :
    (addVariant acc f).lookup q = acc.lookup q := by
  cases hh : f.height with
  | none => simp [addVariant, hh]
  | some h =>
    simp only [variantInBucket, hh, Bool.and_eq_true, decide_eq_true_eq, not_and] at hm
    simp only [addVariant, hh]
    by_cases hc : h ≠ 0 ∧ f.vcodec ≠ some "none"
    · rw [if_pos hc]
      cases hq : height_to_quality h with
      | none => rfl
      | some q' =>
        have hne : q' ≠ q := by
          intro he
          exact hm hc.2 (he ▸ hq)
        have hb : (q == q') = false := beq_eq_false_iff_ne.mpr (Ne.symm hne)
        have hl : List.lookup q [(q', qinfoOf f)] = none := by
          simp [List.lookup, hb]
        by_cases hs : (List.lookup q' acc).isSome
        · simp only [hs, if_true]
        · simp only [hs, if_false, Bool.false_eq_true, List.lookup_append, hl,
            Option.or_none]
    · rw [if_neg hc]

/-- Helper: after folding the whole format list, the binding of `q` is the
info of the first variant that buckets into `q`. -/
theorem lookup_foldl_addVariant (q : String) (fs : List FormatVariant) :
    ∀ acc : List (String × QInfo),
      ((fs.foldl addVariant acc).lookup q) =
        ((acc.lookup q).or ((fs.find? (variantInBucket q)).map qinfoOf)) := by
  induction fs with
  | nil =>
    intro acc
    simp
  | cons f fs ih =>
    intro acc
    rw [List.foldl_cons, ih]
    by_cases hm : variantInBucket q f = true
    · rw [List.find?_cons_of_pos _ hm, lookup_addVariant_pos acc f q hm]
      cases List.lookup q acc <;> simp
    · rw [List.find?_cons_of_neg _ hm, lookup_addVariant_neg acc f q hm]

/-- Helper: the quality list is, bucket by bucket in the fixed order, the
spec entry of the first variant that lands in the bucket. -/
theorem get_available_qualities_eq (d : MediaDescriptor) :
    get_available_qualities d =
      qualityOrder.filterMap (fun q =>
        (d.formats.find? (variantInBucket q)).map (specEntry q)) := by
  unfold get_available_qualities
  refine List.filterMap_congr ?_
  intro q _
  rw [lookup_foldl_addVariant q d.formats []]
  cases d.formats.find? (variantInBucket q) <;> rfl

/-- Helper: the emitted bucket names are the fixed order filtered to the
buckets some variant lands in. -/
theorem values_filterMap_eq_filter (d : MediaDescriptor) (l : List String) :
    (l.filterMap (fun q =>
        (d.formats.find? (variantInBucket q)).map (specEntry q))).map
          QualityEntry.value =
      l.filter (fun q => d.formats.any (variantInBucket q)) := by
  induction l with
  | nil => rfl
  | cons q l ih =>
    rw [List.filterMap_cons, List.filter_cons]
    cases hf : d.formats.find? (variantInBucket q) with
    | none =>
      have hna : d.formats.any (variantInBucket q) = false := by
        rw [List.any_eq_false]
        intro f hfm
        exact List.find?_eq_none.mp hf f hfm
      simp [hna, ih]
    | some f =>
      have hya : d.formats.any (variantInBucket q) = true := by
        rw [List.any_eq_true]
        exact ⟨f, List.mem_of_find?_eq_some hf, List.find?_some hf⟩
      simp [hya, ih, specEntry]

/-- C3: `listAvailableQualities` emits, in the fixed best-to-worst order
and at most once per bucket, one entry per bucket some variant with a
non-none video codec and known height lands in; each entry keeps the
file-size information of the first such variant (never overwritten) and
carries the label of the static table, the 1080p label being Full HD
(1080p). -/
theorem available_qualities_spec (d : MediaDescriptor) :
    get_available_qualities d =
      qualityOrder.filterMap (fun q =>
        (d.formats.find? (variantInBucket q)).map (specEntry q)) ∧
    (get_available_qualities d).map QualityEntry.value =
      qualityOrder.filter (fun q => d.formats.any (variantInBucket q)) ∧
    (∀ e ∈ get_available_qualities d, e.label = get_quality_label e.value) ∧
    get_quality_label "1080p" = "Full HD (1080p)" := by
  refine ⟨get_available_qualities_eq d, ?_, ?_, by decide⟩
  · rw [get_available_qualities_eq d]
    exact values_filterMap_eq_filter d qualityOrder
  · intro e he
    rw [get_available_qualities_eq d] at he
    obtain ⟨q, hq, hsome⟩ := List.mem_filterMap.mp he
    cases hf : d.formats.find? (variantInBucket q) with
    | none =>
      rw [hf, Option.map_none'] at hsome
      exact Option.noConfusion hsome
    | some f =>
      rw [hf, Option.map_some'] at hsome
      rw [← Option.some_inj.mp hsome]
      rfl

/-- C4: `buildOptions` yields for photo a minimal passthrough config with
no stream selector, no postprocessor and no merge directive; for audio the
best-audio selector with one audio-extraction postprocessor targeting the
requested format at quality 320; and otherwise the height-capped selector
with merge container when the quality is a known bucket, or the
unconstrained best selector when it is not (as for highest). -/
theorem download_options_spec (quality format_type download_type : String) :
    (get_download_options quality format_type "photo" =
        { quiet := some true, no_warnings := some true } ∧
      (get_download_options quality format_type "photo").format = none ∧
      (get_download_options quality format_type "photo").postprocessors = [] ∧
      (get_download_options quality format_type "photo").merge_output_format = none) ∧
    get_download_options quality format_type "audio" =
      { format := some "bestaudio/best",
        postprocessors := [⟨"FFmpegExtractAudio", format_type, "320"⟩],
        quiet := some false } ∧
    (download_type ≠ "photo" → download_type ≠ "audio" →
      (∀ height : Nat, quality_map.lookup quality = some height →
        get_download_options quality format_type download_type =
          { format := some ("bestvideo[height<=" ++ toString height ++
              "]+bestaudio/best[height<=" ++ toString height ++ "]"),
            merge_output_format := some format_type, quiet := some false }) ∧
      (quality_map.lookup quality = none →
        get_download_options quality format_type download_type =
          { format := some "bestvideo+bestaudio/best",
            merge_output_format := some format_type, quiet := some false })) ∧
    quality_map.lookup "highest" = none := by
  refine ⟨⟨by rfl, by rfl, by rfl, by rfl⟩, by rfl, ?_, by decide⟩
  intro h1 h2
  constructor
  · intro height hq
    simp [get_download_options, h1, h2, hq, heightCappedSelector]
  · intro hq
    simp [get_download_options, h1, h2, hq]

/-- Helper: the fallback loop is a first-match search over the candidate
extension list. -/
theorem firstExisting_eq_findSome (fs : FileSystem) (base : String) :
    ∀ exts : List String,
      firstExisting fs base exts =
        exts.findSome? (fun e =>
          (fs (base ++ "." ++ e)).map (fun sz => (base ++ "." ++ e, sz))) := by
  intro exts
  induction exts with
  | nil => rfl
  | cons e es ih =>
    rw [List.findSome?_cons]
    cases hfs : fs (base ++ "." ++ e) with
    | none => simp [firstExisting, hfs, ih]
    | some sz => simp [firstExisting, hfs]

/-- C5: when the external service returns normally, the download first
rewrites the predicted extension to the requested format for audio, then:
an existing non-empty file gives the success envelope, an existing empty
file the empty-file failure, and a missing file is searched for under the
candidate extensions in their exact priority order, the first existing
candidate giving the success envelope and none of them the not-found
failure. -/
theorem download_locates_file (fs : FileSystem) (info : ExtractResult)
    (filename0 download_type format_type : String) :
    ∀ fn : String,
      fn = (if download_type = "audio"
        then (splitext filename0).1 ++ "." ++ format_type else filename0) →
      ((∀ sz : Nat, fs fn = some sz → sz ≠ 0 →
          download fs (.ok (info, filename0)) download_type format_type =
            successEnvelope info fn sz) ∧
       (fs fn = some 0 →
          download fs (.ok (info, filename0)) download_type format_type =
            { success := false,
              error := some "Downloaded file is empty. Try a different quality." }) ∧
       (fs fn = none →
          download fs (.ok (info, filename0)) download_type format_type =
            (match firstExisting fs ((splitext fn).1) candidateExts with
             | some (path, sz) => successEnvelope info path sz
             | none =>
               { success := false,
                 error := some "Could not find downloaded file." })) ∧
       (∀ base : String, firstExisting fs base candidateExts =
          candidateExts.findSome? (fun e =>
            (fs (base ++ "." ++ e)).map (fun sz => (base ++ "." ++ e, sz))))) := by
  intro fn hfn
  subst hfn
  refine ⟨?_, ?_, ?_, fun base => firstExisting_eq_findSome fs base candidateExts⟩
  · intro sz hsz hnz
    simp only [download, resolveDownload, hsz]
    rw [if_neg hnz]
  · intro hsz
    simp [download, resolveDownload, hsz]
  · intro hsz
    simp only [download, resolveDownload, hsz]

/-- Witness for C5: with only `downloads/clip.mkv` on disk and the
prediction `downloads/clip.webm`, the fallback search returns the success
envelope for `clip.mkv`. -/
theorem download_locates_file_witness :
    download fsClip (.ok (infoClip, "downloads/clip.webm")) "video" "mp4" =
      successEnvelope infoClip "downloads/clip.mkv" 5 ∧
    (download fsClip (.ok (infoClip, "downloads/clip.webm")) "video" "mp4").filename =
      some "clip.mkv" := by
  have h := (download_locates_file fsClip infoClip "downloads/clip.webm" "video" "mp4"
      "downloads/clip.webm" (by decide)).2.2.1 (by decide)
  exact ⟨h.trans (by decide), by rw [h] ; decide⟩

/-- Counterexample for C6: the message Requested format is not available
does contain the phrase the claim names, yet the code returns it verbatim,
not the friendlier quality message, because the lowered message does not
contain the substring unavailable. -/
theorem requested_format_message_kept_raw :
    pyIn "Requested format is not available" "Requested format is not available" = true ∧
    download (fun _ => none) (.error "Requested format is not available") "video" "mp4" =
      { success := false, error := some "Requested format is not available" } ∧
    ("Requested format is not available" : String) ≠
      "This quality is not available. Please try a lower quality." ∧
    pyIn "unavailable" (pyLower "Requested format is not available") = false := by
  exact ⟨by decide, by decide, by decide, by decide⟩

/-- C6 as amended: an error whose message contains unavailable
case-insensitively is mapped to the friendlier quality message. -/
theorem unavailable_message_mapped (fs : FileSystem)
    (download_type format_type msg : String) :
    pyIn "unavailable" (pyLower msg) = true →
    download fs (.error msg) download_type format_type =
      { success := false,
        error := some "This quality is not available. Please try a lower quality." } := by
  intro h
  simp [download, h]

/-- Witness for C6 as amended: the message Video unavailable is mapped. -/
theorem unavailable_message_mapped_witness :
    pyIn "unavailable" (pyLower "Video unavailable") = true ∧
    download (fun _ => none) (.error "Video unavailable") "video" "mp4" =
      { success := false,
        error := some "This quality is not available. Please try a lower quality." } :=
  ⟨by decide, unavailable_message_mapped (fun _ => none) "video" "mp4"
    "Video unavailable" (by decide)⟩

/-- Counterexample for C7: when the raised message is itself the friendly
text, the returned error equals the friendly text although the message
does not contain the substring unavailable, so the stated if-and-only-if
fails in the only-if direction. -/
theorem friendly_text_collision :
    pyIn "unavailable"
      (pyLower "This quality is not available. Please try a lower quality.") = false ∧
    download (fun _ => none)
      (.error "This quality is not available. Please try a lower quality.")
      "video" "mp4" =
      { success := false,
        error := some "This quality is not available. Please try a lower quality." } := by
  exact ⟨by decide, by decide⟩

/-- C7 as amended: every exception becomes a failure envelope whose error
is the friendly message when the lowered message contains unavailable and
the raw message otherwise (which may coincide with the friendly text); no
exception escapes the operation. -/
theorem exception_error_envelope (fs : FileSystem)
    (download_type format_type msg : String) :
    download fs (.error msg) download_type format_type =
      { success := false,
        error := some (if pyIn "unavailable" (pyLower msg) then
          "This quality is not available. Please try a lower quality." else msg) } := by
  cases h : pyIn "unavailable" (pyLower msg) <;> simp [download, h]

/-- C10: the zero-size check guards only the predicted filename; a
fallback candidate that exists with size zero is returned as a success
envelope with filesize 0, not as the empty-file failure. -/
theorem zero_size_fallback_succeeds (fs : FileSystem) (info : ExtractResult)
    (filename0 download_type format_type path : String) :
    ∀ fn : String,
      fn = (if download_type = "audio"
        then (splitext filename0).1 ++ "." ++ format_type else filename0) →
      fs fn = none →
      firstExisting fs ((splitext fn).1) candidateExts = some (path, 0) →
      (download fs (.ok (info, filename0)) download_type format_type =
          successEnvelope info path 0 ∧
        (download fs (.ok (info, filename0)) download_type format_type).success = true ∧
        (download fs (.ok (info, filename0)) download_type format_type).filesize = some 0 ∧
        (download fs (.ok (info, filename0)) download_type format_type).error ≠
          some "Downloaded file is empty. Try a different quality.") := by
  intro fn hfn
  subst hfn
  intro hnone hfirst
  have hd : download fs (.ok (info, filename0)) download_type format_type =
      successEnvelope info path 0 := by
    simp only [download, resolveDownload, hnone, hfirst]
  refine ⟨hd, by rw [hd] ; rfl, by rw [hd] ; rfl, by rw [hd] ; simp [successEnvelope]⟩

/-- Witness for C10: with only the empty `downloads/song.webm` on disk and
the prediction `downloads/song.mp4`, the download succeeds with size 0. -/
theorem zero_size_fallback_succeeds_witness :
    download fsSongZero (.ok (infoClip, "downloads/song.mp4")) "video" "mp4" =
      successEnvelope infoClip "downloads/song.webm" 0 :=
  (zero_size_fallback_succeeds fsSongZero infoClip "downloads/song.mp4" "video" "mp4"
    "downloads/song.webm" "downloads/song.mp4" (by decide) (by decide) (by decide)).1

/-- C9: bucketing is monotone in height under the fixed quality order
none, 144p, 240p, 360p, 480p, 720p, 1080p, 2k, 4k, 8k (compared through
`qualityRank`). -/
theorem height_to_quality_monotone (h1 h2 : Nat) (hpos : 0 < h1) (hle : h1 ≤ h2) :
    qualityRank (height_to_quality h1) ≤ qualityRank (height_to_quality h2) := by
  by_cases a1 : 4320 ≤ h1
  ·
    by_cases b1 : 4320 ≤ h2
    · simp [height_to_quality, qualityRank, ge_iff_le, a1, b1] <;> omega
    ·
      by_cases b2 : 2160 ≤ h2
      · simp [height_to_quality, qualityRank, ge_iff_le, a1, b1, b2] <;> omega
      ·
        by_cases b3 : 1440 ≤ h2
        · simp [height_to_quality, qualityRank, ge_iff_le, a1, b1, b2, b3] <;> omega
        ·
          by_cases b4 : 1080 ≤ h2
          · simp [height_to_quality, qualityRank, ge_iff_le, a1, b1, b2, b3, b4] <;> omega
          ·
            by_cases b5 : 720 ≤ h2
            · simp [height_to_quality, qualityRank, ge_iff_le, a1, b1, b2, b3, b4, b5] <;> omega
            ·
              by_cases b6 : 480 ≤ h2
              · simp [height_to_quality, qualityRank, ge_iff_le, a1, b1, b2, b3, b4, b5, b6] <;> omega
              ·
                by_cases b7 : 360 ≤ h2
                · simp [height_to_quality, qualityRank, ge_iff_le, a1, b1, b2, b3, b4, b5, b6, b7] <;> omega
                ·
                  by_cases b8 : 240 ≤ h2
                  · simp [height_to_quality, qualityRank, ge_iff_le, a1, b1, b2, b3, b4, b5, b6, b7, b8] <;> omega
                  ·
                    by_cases b9 : 144 ≤ h2
                    · simp [height_to_quality, qualityRank, ge_iff_le, a1, b1, b2, b3, b4, b5, b6, b7, b8, b9] <;> omega
                    ·
                      simp [height_to_quality, qualityRank, ge_iff_le, a1, b1, b2, b3, b4, b5, b6, b7, b8, b9] <;> omega
  ·
    by_cases a2 : 2160 ≤ h1
    ·
      by_cases b1 : 4320 ≤ h2
      · simp [height_to_quality, qualityRank, ge_iff_le, a1, a2, b1] <;> omega
      ·
        by_cases b2 : 2160 ≤ h2
        · simp [height_to_quality, qualityRank, ge_iff_le, a1, a2, b1, b2] <;> omega
        ·
          by_cases b3 : 1440 ≤ h2
          · simp [height_to_quality, qualityRank, ge_iff_le, a1, a2, b1, b2, b3] <;> omega
          ·
            by_cases b4 : 1080 ≤ h2
            · simp [height_to_quality, qualityRank, ge_iff_le, a1, a2, b1, b2, b3, b4] <;> omega
            ·
              by_cases b5 : 720 ≤ h2
              · simp [height_to_quality, qualityRank, ge_iff_le, a1, a2, b1, b2, b3, b4, b5] <;> omega
              ·
                by_cases b6 : 480 ≤ h2
                · simp [height_to_quality, qualityRank, ge_iff_le, a1, a2, b1, b2, b3, b4, b5, b6] <;> omega
                ·
                  by_cases b7 : 360 ≤ h2
                  · simp [height_to_quality, qualityRank, ge_iff_le, a1, a2, b1, b2, b3, b4, b5, b6, b7] <;> omega
                  ·
                    by_cases b8 : 240 ≤ h2
                    · simp [height_to_quality, qualityRank, ge_iff_le, a1, a2, b1, b2, b3, b4, b5, b6, b7, b8] <;> omega
                    ·
                      by_cases b9 : 144 ≤ h2
                      · simp [height_to_quality, qualityRank, ge_iff_le, a1, a2, b1, b2, b3, b4, b5, b6, b7, b8, b9] <;> omega
                      ·
                        simp [height_to_quality, qualityRank, ge_iff_le, a1, a2, b1, b2, b3, b4, b5, b6, b7, b8, b9] <;> omega
    ·
      by_cases a3 : 1440 ≤ h1
      ·
        by_cases b1 : 4320 ≤ h2
        · simp [height_to_quality, qualityRank, ge_iff_le, a1, a2, a3, b1] <;> omega
        ·
          by_cases b2 : 2160 ≤ h2
          · simp [height_to_quality, qualityRank, ge_iff_le, a1, a2, a3, b1, b2] <;> omega
          ·
            by_cases b3 : 1440 ≤ h2
            · simp [height_to_quality, qualityRank, ge_iff_le, a1, a2, a3, b1, b2, b3] <;> omega
            ·
              by_cases b4 : 1080 ≤ h2
              · simp [height_to_quality, qualityRank, ge_iff_le, a1, a2, a3, b1, b2, b3, b4] <;> omega
              ·
                by_cases b5 : 720 ≤ h2
                · simp [height_to_quality, qualityRank, ge_iff_le, a1, a2, a3, b1, b2, b3, b4, b5] <;> omega
                ·
                  by_cases b6 : 480 ≤ h2
                  · simp [height_to_quality, qualityRank, ge_iff_le, a1, a2, a3, b1, b2, b3, b4, b5, b6] <;> omega
                  ·
                    by_cases b7 : 360 ≤ h2
                    · simp [height_to_quality, qualityRank, ge_iff_le, a1, a2, a3, b1, b2, b3, b4, b5, b6, b7] <;> omega
                    ·
                      by_cases b8 : 240 ≤ h2
                      · simp [height_to_quality, qualityRank, ge_iff_le, a1, a2, a3, b1, b2, b3, b4, b5, b6, b7, b8] <;> omega
                      ·
                        by_cases b9 : 144 ≤ h2
                        · simp [height_to_quality, qualityRank, ge_iff_le, a1, a2, a3, b1, b2, b3, b4, b5, b6, b7, b8, b9] <;> omega
                        ·
                          simp [height_to_quality, qualityRank, ge_iff_le, a1, a2, a3, b1, b2, b3, b4, b5, b6, b7, b8, b9] <;> omega
      ·
        by_cases a4 : 1080 ≤ h1
        ·
          by_cases b1 : 4320 ≤ h2
          · simp [height_to_quality, qualityRank, ge_iff_le, a1, a2, a3, a4, b1] <;> omega
          ·
            by_cases b2 : 2160 ≤ h2
            · simp [height_to_quality, qualityRank, ge_iff_le, a1, a2, a3, a4, b1, b2] <;> omega
            ·
              by_cases b3 : 1440 ≤ h2
              · simp [height_to_quality, qualityRank, ge_iff_le, a1, a2, a3, a4, b1, b2, b3] <;> omega
              ·
                by_cases b4 : 1080 ≤ h2
                · simp [height_to_quality, qualityRank, ge_iff_le, a1, a2, a3, a4, b1, b2, b3, b4] <;> omega
                ·
                  by_cases b5 : 720 ≤ h2
                  · simp [height_to_quality, qualityRank, ge_iff_le, a1, a2, a3, a4, b1, b2, b3, b4, b5] <;> omega
                  ·
                    by_cases b6 : 480 ≤ h2
                    · simp [height_to_quality, qualityRank, ge_iff_le, a1, a2, a3, a4, b1, b2, b3, b4, b5, b6] <;> omega
                    ·
                      by_cases b7 : 360 ≤ h2
                      · simp [height_to_quality, qualityRank, ge_iff_le, a1, a2, a3, a4, b1, b2, b3, b4, b5, b6, b7] <;> omega
                      ·
                        by_cases b8 : 240 ≤ h2
                        · simp [height_to_quality, qualityRank, ge_iff_le, a1, a2, a3, a4, b1, b2, b3, b4, b5, b6, b7, b8] <;> omega
                        ·
                          by_cases b9 : 144 ≤ h2
                          · simp [height_to_quality, qualityRank, ge_iff_le, a1, a2, a3, a4, b1, b2, b3, b4, b5, b6, b7, b8, b9] <;> omega
                          ·
                            simp [height_to_quality, qualityRank, ge_iff_le, a1, a2, a3, a4, b1, b2, b3, b4, b5, b6, b7, b8, b9] <;> omega
        ·
          by_cases a5 : 720 ≤ h1
          ·
            by_cases b1 : 4320 ≤ h2
            · simp [height_to_quality, qualityRank, ge_iff_le, a1, a2, a3, a4, a5, b1] <;> omega
            ·
              by_cases b2 : 2160 ≤ h2
              · simp [height_to_quality, qualityRank, ge_iff_le, a1, a2, a3, a4, a5, b1, b2] <;> omega
              ·
                by_cases b3 : 1440 ≤ h2
                · simp [height_to_quality, qualityRank, ge_iff_le, a1, a2, a3, a4, a5, b1, b2, b3] <;> omega
                ·
                  by_cases b4 : 1080 ≤ h2
                  · simp [height_to_quality, qualityRank, ge_iff_le, a1, a2, a3, a4, a5, b1, b2, b3, b4] <;> omega
                  ·
                    by_cases b5 : 720 ≤ h2
                    · simp [height_to_quality, qualityRank, ge_iff_le, a1, a2, a3, a4, a5, b1, b2, b3, b4, b5] <;> omega
                    ·
                      by_cases b6 : 480 ≤ h2
                      · simp [height_to_quality, qualityRank, ge_iff_le, a1, a2, a3, a4, a5, b1, b2, b3, b4, b5, b6] <;> omega
                      ·
                        by_cases b7 : 360 ≤ h2
                        · simp [height_to_quality, qualityRank, ge_iff_le, a1, a2, a3, a4, a5, b1, b2, b3, b4, b5, b6, b7] <;> omega
                        ·
                          by_cases b8 : 240 ≤ h2
                          · simp [height_to_quality, qualityRank, ge_iff_le, a1, a2, a3, a4, a5, b1, b2, b3, b4, b5, b6, b7, b8] <;> omega
                          ·
                            by_cases b9 : 144 ≤ h2
                            · simp [height_to_quality, qualityRank, ge_iff_le, a1, a2, a3, a4, a5, b1, b2, b3, b4, b5, b6, b7, b8, b9] <;> omega
                            ·
                              simp [height_to_quality, qualityRank, ge_iff_le, a1, a2, a3, a4, a5, b1, b2, b3, b4, b5, b6, b7, b8, b9] <;> omega
          ·
            by_cases a6 : 480 ≤ h1
            ·
              by_cases b1 : 4320 ≤ h2
              · simp [height_to_quality, qualityRank, ge_iff_le, a1, a2, a3, a4, a5, a6, b1] <;> omega
              ·
                by_cases b2 : 2160 ≤ h2
                · simp [height_to_quality, qualityRank, ge_iff_le, a1, a2, a3, a4, a5, a6, b1, b2] <;> omega
                ·
                  by_cases b3 : 1440 ≤ h2
                  · simp [height_to_quality, qualityRank, ge_iff_le, a1, a2, a3, a4, a5, a6, b1, b2, b3] <;> omega
                  ·
                    by_cases b4 : 1080 ≤ h2
                    · simp [height_to_quality, qualityRank, ge_iff_le, a1, a2, a3, a4, a5, a6, b1, b2, b3, b4] <;> omega
                    ·
                      by_cases b5 : 720 ≤ h2
                      · simp [height_to_quality, qualityRank, ge_iff_le, a1, a2, a3, a4, a5, a6, b1, b2, b3, b4, b5] <;> omega
                      ·
                        by_cases b6 : 480 ≤ h2
                        · simp [height_to_quality, qualityRank, ge_iff_le, a1, a2, a3, a4, a5, a6, b1, b2, b3, b4, b5, b6] <;> omega
                        ·
                          by_cases b7 : 360 ≤ h2
                          · simp [height_to_quality, qualityRank, ge_iff_le, a1, a2, a3, a4, a5, a6, b1, b2, b3, b4, b5, b6, b7] <;> omega
                          ·
                            by_cases b8 : 240 ≤ h2
                            · simp [height_to_quality, qualityRank, ge_iff_le, a1, a2, a3, a4, a5, a6, b1, b2, b3, b4, b5, b6, b7, b8] <;> omega
                            ·
                              by_cases b9 : 144 ≤ h2
                              · simp [height_to_quality, qualityRank, ge_iff_le, a1, a2, a3, a4, a5, a6, b1, b2, b3, b4, b5, b6, b7, b8, b9] <;> omega
                              ·
                                simp [height_to_quality, qualityRank, ge_iff_le, a1, a2, a3, a4, a5, a6, b1, b2, b3, b4, b5, b6, b7, b8, b9] <;> omega
            ·
              by_cases a7 : 360 ≤ h1
              ·
                by_cases b1 : 4320 ≤ h2
                · simp [height_to_quality, qualityRank, ge_iff_le, a1, a2, a3, a4, a5, a6, a7, b1] <;> omega
                ·
                  by_cases b2 : 2160 ≤ h2
                  · simp [height_to_quality, qualityRank, ge_iff_le, a1, a2, a3, a4, a5, a6, a7, b1, b2] <;> omega
                  ·
                    by_cases b3 : 1440 ≤ h2
                    · simp [height_to_quality, qualityRank, ge_iff_le, a1, a2, a3, a4, a5, a6, a7, b1, b2, b3] <;> omega
                    ·
                      by_cases b4 : 1080 ≤ h2
                      · simp [height_to_quality, qualityRank, ge_iff_le, a1, a2, a3, a4, a5, a6, a7, b1, b2, b3, b4] <;> omega
                      ·
                        by_cases b5 : 720 ≤ h2
                        · simp [height_to_quality, qualityRank, ge_iff_le, a1, a2, a3, a4, a5, a6, a7, b1, b2, b3, b4, b5] <;> omega
                        ·
                          by_cases b6 : 480 ≤ h2
                          · simp [height_to_quality, qualityRank, ge_iff_le, a1, a2, a3, a4, a5, a6, a7, b1, b2, b3, b4, b5, b6] <;> omega
                          ·
                            by_cases b7 : 360 ≤ h2
                            · simp [height_to_quality, qualityRank, ge_iff_le, a1, a2, a3, a4, a5, a6, a7, b1, b2, b3, b4, b5, b6, b7] <;> omega
                            ·
                              by_cases b8 : 240 ≤ h2
                              · simp [height_to_quality, qualityRank, ge_iff_le, a1, a2, a3, a4, a5, a6, a7, b1, b2, b3, b4, b5, b6, b7, b8] <;> omega
                              ·
                                by_cases b9 : 144 ≤ h2
                                · simp [height_to_quality, qualityRank, ge_iff_le, a1, a2, a3, a4, a5, a6, a7, b1, b2, b3, b4, b5, b6, b7, b8, b9] <;> omega
                                ·
                                  simp [height_to_quality, qualityRank, ge_iff_le, a1, a2, a3, a4, a5, a6, a7, b1, b2, b3, b4, b5, b6, b7, b8, b9] <;> omega
              ·
                by_cases a8 : 240 ≤ h1
                ·
                  by_cases b1 : 4320 ≤ h2
                  · simp [height_to_quality, qualityRank, ge_iff_le, a1, a2, a3, a4, a5, a6, a7, a8, b1] <;> omega
                  ·
                    by_cases b2 : 2160 ≤ h2
                    · simp [height_to_quality, qualityRank, ge_iff_le, a1, a2, a3, a4, a5, a6, a7, a8, b1, b2] <;> omega
                    ·
                      by_cases b3 : 1440 ≤ h2
                      · simp [height_to_quality, qualityRank, ge_iff_le, a1, a2, a3, a4, a5, a6, a7, a8, b1, b2, b3] <;> omega
                      ·
                        by_cases b4 : 1080 ≤ h2
                        · simp [height_to_quality, qualityRank, ge_iff_le, a1, a2, a3, a4, a5, a6, a7, a8, b1, b2, b3, b4] <;> omega
                        ·
                          by_cases b5 : 720 ≤ h2
                          · simp [height_to_quality, qualityRank, ge_iff_le, a1, a2, a3, a4, a5, a6, a7, a8, b1, b2, b3, b4, b5] <;> omega
                          ·
                            by_cases b6 : 480 ≤ h2
                            · simp [height_to_quality, qualityRank, ge_iff_le, a1, a2, a3, a4, a5, a6, a7, a8, b1, b2, b3, b4, b5, b6] <;> omega
                            ·
                              by_cases b7 : 360 ≤ h2
                              · simp [height_to_quality, qualityRank, ge_iff_le, a1, a2, a3, a4, a5, a6, a7, a8, b1, b2, b3, b4, b5, b6, b7] <;> omega
                              ·
                                by_cases b8 : 240 ≤ h2
                                · simp [height_to_quality, qualityRank, ge_iff_le, a1, a2, a3, a4, a5, a6, a7, a8, b1, b2, b3, b4, b5, b6, b7, b8] <;> omega
                                ·
                                  by_cases b9 : 144 ≤ h2
                                  · simp [height_to_quality, qualityRank, ge_iff_le, a1, a2, a3, a4, a5, a6, a7, a8, b1, b2, b3, b4, b5, b6, b7, b8, b9] <;> omega
                                  ·
                                    simp [height_to_quality, qualityRank, ge_iff_le, a1, a2, a3, a4, a5, a6, a7, a8, b1, b2, b3, b4, b5, b6, b7, b8, b9] <;> omega
                ·
                  by_cases a9 : 144 ≤ h1
                  ·
                    by_cases b1 : 4320 ≤ h2
                    · simp [height_to_quality, qualityRank, ge_iff_le, a1, a2, a3, a4, a5, a6, a7, a8, a9, b1] <;> omega
                    ·
                      by_cases b2 : 2160 ≤ h2
                      · simp [height_to_quality, qualityRank, ge_iff_le, a1, a2, a3, a4, a5, a6, a7, a8, a9, b1, b2] <;> omega
                      ·
                        by_cases b3 : 1440 ≤ h2
                        · simp [height_to_quality, qualityRank, ge_iff_le, a1, a2, a3, a4, a5, a6, a7, a8, a9, b1, b2, b3] <;> omega
                        ·
                          by_cases b4 : 1080 ≤ h2
                          · simp [height_to_quality, qualityRank, ge_iff_le, a1, a2, a3, a4, a5, a6, a7, a8, a9, b1, b2, b3, b4] <;> omega
                          ·
                            by_cases b5 : 720 ≤ h2
                            · simp [height_to_quality, qualityRank, ge_iff_le, a1, a2, a3, a4, a5, a6, a7, a8, a9, b1, b2, b3, b4, b5] <;> omega
                            ·
                              by_cases b6 : 480 ≤ h2
                              · simp [height_to_quality, qualityRank, ge_iff_le, a1, a2, a3, a4, a5, a6, a7, a8, a9, b1, b2, b3, b4, b5, b6] <;> omega
                              ·
                                by_cases b7 : 360 ≤ h2
                                · simp [height_to_quality, qualityRank, ge_iff_le, a1, a2, a3, a4, a5, a6, a7, a8, a9, b1, b2, b3, b4, b5, b6, b7] <;> omega
                                ·
                                  by_cases b8 : 240 ≤ h2
                                  · simp [height_to_quality, qualityRank, ge_iff_le, a1, a2, a3, a4, a5, a6, a7, a8, a9, b1, b2, b3, b4, b5, b6, b7, b8] <;> omega
                                  ·
                                    by_cases b9 : 144 ≤ h2
                                    · simp [height_to_quality, qualityRank, ge_iff_le, a1, a2, a3, a4, a5, a6, a7, a8, a9, b1, b2, b3, b4, b5, b6, b7, b8, b9] <;> omega
                                    ·
                                      simp [height_to_quality, qualityRank, ge_iff_le, a1, a2, a3, a4, a5, a6, a7, a8, a9, b1, b2, b3, b4, b5, b6, b7, b8, b9] <;> omega
                  ·
                    by_cases b1 : 4320 ≤ h2
                    · simp [height_to_quality, qualityRank, ge_iff_le, a1, a2, a3, a4, a5, a6, a7, a8, a9, b1] <;> omega
                    ·
                      by_cases b2 : 2160 ≤ h2
                      · simp [height_to_quality, qualityRank, ge_iff_le, a1, a2, a3, a4, a5, a6, a7, a8, a9, b1, b2] <;> omega
                      ·
                        by_cases b3 : 1440 ≤ h2
                        · simp [height_to_quality, qualityRank, ge_iff_le, a1, a2, a3, a4, a5, a6, a7, a8, a9, b1, b2, b3] <;> omega
                        ·
                          by_cases b4 : 1080 ≤ h2
                          · simp [height_to_quality, qualityRank, ge_iff_le, a1, a2, a3, a4, a5, a6, a7, a8, a9, b1, b2, b3, b4] <;> omega
                          ·
                            by_cases b5 : 720 ≤ h2
                            · simp [height_to_quality, qualityRank, ge_iff_le, a1, a2, a3, a4, a5, a6, a7, a8, a9, b1, b2, b3, b4, b5] <;> omega
                            ·
                              by_cases b6 : 480 ≤ h2
                              · simp [height_to_quality, qualityRank, ge_iff_le, a1, a2, a3, a4, a5, a6, a7, a8, a9, b1, b2, b3, b4, b5, b6] <;> omega
                              ·
                                by_cases b7 : 360 ≤ h2
                                · simp [height_to_quality, qualityRank, ge_iff_le, a1, a2, a3, a4, a5, a6, a7, a8, a9, b1, b2, b3, b4, b5, b6, b7] <;> omega
                                ·
                                  by_cases b8 : 240 ≤ h2
                                  · simp [height_to_quality, qualityRank, ge_iff_le, a1, a2, a3, a4, a5, a6, a7, a8, a9, b1, b2, b3, b4, b5, b6, b7, b8] <;> omega
                                  ·
                                    by_cases b9 : 144 ≤ h2
                                    · simp [height_to_quality, qualityRank, ge_iff_le, a1, a2, a3, a4, a5, a6, a7, a8, a9, b1, b2, b3, b4, b5, b6, b7, b8, b9] <;> omega
                                    ·
                                      simp [height_to_quality, qualityRank, ge_iff_le, a1, a2, a3, a4, a5, a6, a7, a8, a9, b1, b2, b3, b4, b5, b6, b7, b8, b9] <;> omega

/-- Witness for C9: at heights 200 and 2000 the hypotheses hold and the
ranks are ordered. -/
theorem height_to_quality_monotone_witness :
    0 < 200 ∧ (200 : Nat) ≤ 2000 ∧
    qualityRank (height_to_quality 200) ≤ qualityRank (height_to_quality 2000) :=
  ⟨by decide, by decide, height_to_quality_monotone 200 2000 (by decide) (by decide)⟩
